import Mathlib

/-!
Verification of the Violet pool-controller device coordinator and command
dispatcher against its specification.  The definitions below are a shallow
embedding of the Python source (custom_components/violet_pool_controller):
strings are `List Char`, timestamps are `Nat` seconds, the HTTP transport is
an oracle `Nat → outcome` giving the result of each attempt, and every
stateful method becomes an explicit state-passing function.
-/

/-! ## Response parser (switch.py, VioletSwitch._send_command lines 80-81)

The device acknowledgement is plain text.  The code computes
`lines = response_text.strip().split('\n')` and accepts iff
`len(lines) >= 3 and lines[0] == "OK" and lines[1] == self._key and
 ("SWITCHED_TO" in lines[2] or "ON" in lines[2] or "OFF" in lines[2])`. -/

/-- Python whitespace characters removed by `str.strip()` (ASCII range). -/
def isPySpace (c : Char) : Bool :=
  c == ' ' || c == '\t' || c == '\n' || c == '\r' || c.toNat == 11 || c.toNat == 12

/-- Python `s.strip()`: drop whitespace from both ends. -/
def pyStrip (s : List Char) : List Char :=
  ((s.dropWhile isPySpace).reverse.dropWhile isPySpace).reverse

/-- Python `s.split('\n')`: split at every newline, keeping empty pieces. -/
def splitNl : List Char → List (List Char)
  | [] => [[]]
  | c :: rest =>
    if c == '\n' then [] :: splitNl rest
    else
      match splitNl rest with
      | [] => [[c]]
      | l :: ls => (c :: l) :: ls

/-- Whether `hay` starts with `needle`. -/
def startsWithL : List Char → List Char → Bool
  | [], _ => true
  | _ :: _, [] => false
  | a :: as, b :: bs => a == b && startsWithL as bs

/-- Python substring test `needle in hay`. -/
def containsTok (needle : List Char) : List Char → Bool
  | [] => startsWithL needle []
  | c :: rest => startsWithL needle (c :: rest) || containsTok needle rest

/-- Outcome of parsing a command acknowledgement. -/
inductive AckResult
  | SUCCESS
  | PROTOCOL_MISMATCH
deriving DecidableEq

/-- The boolean acceptance condition of switch.py line 81, on the lines of the
stripped response text. -/
def ackOk (responseText theKey : List Char) : Bool :=
  let lines := splitNl (pyStrip responseText)
  decide (3 ≤ lines.length) && (lines.getD 0 [] == "OK".data) &&
    (lines.getD 1 [] == theKey) &&
    (containsTok "SWITCHED_TO".data (lines.getD 2 []) ||
     containsTok "ON".data (lines.getD 2 []) ||
     containsTok "OFF".data (lines.getD 2 []))

/-- Classification of the device acknowledgement: the code's success branch
versus its "Unexpected response" branch. -/
def parseCommandAck (responseText theKey : List Char) : AckResult :=
  if ackOk responseText theKey then .SUCCESS else .PROTOCOL_MISMATCH

/-- The specification's wording of the success condition (§4.2): at least
three lines; line 1 equals `OK`; line 2 equals the echoed key; line 3
contains one of the tokens `SWITCHED_TO`, `ON`, `OFF` (substring). -/
def AckSuccessSpec (responseText theKey : List Char) : Prop :=
  3 ≤ (splitNl (pyStrip responseText)).length ∧
  (splitNl (pyStrip responseText)).getD 0 [] = "OK".data ∧
  (splitNl (pyStrip responseText)).getD 1 [] = theKey ∧
  ((∃ a b, (splitNl (pyStrip responseText)).getD 2 [] = a ++ "SWITCHED_TO".data ++ b) ∨
   (∃ a b, (splitNl (pyStrip responseText)).getD 2 [] = a ++ "ON".data ++ b) ∨
   (∃ a b, (splitNl (pyStrip responseText)).getD 2 [] = a ++ "OFF".data ++ b))

theorem startsWithL_iff (n : List Char) : ∀ h : List Char,
    startsWithL n h = true ↔ ∃ t, h = n ++ t := by
  induction n with
  | nil => intro h; simp [startsWithL]
  | cons a as ih =>
    intro h
    cases h with
    | nil => simp [startsWithL]
    | cons b bs =>
      simp only [startsWithL, Bool.and_eq_true, beq_iff_eq, ih, List.cons_append]
      constructor
      · rintro ⟨rfl, t, rfl⟩; exact ⟨t, rfl⟩
      · rintro ⟨t, ht⟩
        rw [List.cons.injEq] at ht
        exact ⟨ht.1.symm, t, ht.2⟩

theorem containsTok_iff (n : List Char) : ∀ h : List Char,
    containsTok n h = true ↔ ∃ a b, h = a ++ n ++ b := by
  intro h
  induction h with
  | nil =>
    simp only [containsTok, startsWithL_iff]
    constructor
    · rintro ⟨t, ht⟩; exact ⟨[], t, by simpa using ht⟩
    · rintro ⟨a, b, hab⟩
      rcases List.append_eq_nil.mp (List.append_eq_nil.mp hab.symm).1 with ⟨rfl, rfl⟩
      exact ⟨b, by simpa using hab⟩
  | cons c cs ih =>
    simp only [containsTok, Bool.or_eq_true, startsWithL_iff, ih]
    constructor
    · rintro (⟨t, ht⟩ | ⟨a, b, rfl⟩)
      · exact ⟨[], t, by simpa using ht⟩
      · exact ⟨c :: a, b, by simp⟩
    · rintro ⟨a, b, hab⟩
      cases a with
      | nil => exact Or.inl ⟨b, by simpa using hab⟩
      | cons a0 as =>
        rw [List.cons_append, List.cons_append, List.cons.injEq] at hab
        exact Or.inr ⟨as, b, hab.2⟩

theorem ackOk_iff (t k : List Char) : ackOk t k = true ↔ AckSuccessSpec t k := by
  simp only [ackOk, AckSuccessSpec, Bool.and_eq_true, Bool.or_eq_true,
    decide_eq_true_eq, beq_iff_eq, containsTok_iff, and_assoc, or_assoc]

/-- C1: the acknowledgement is classified SUCCESS iff the (stripped) response
has at least 3 lines, line 1 is `OK`, line 2 is the expected key, and line 3
contains `SWITCHED_TO`, `ON` or `OFF`; every violation (too few lines, key
mismatch, bad third line) yields PROTOCOL_MISMATCH instead. -/
theorem parseCommandAck_success_iff (t k : List Char) :
    (parseCommandAck t k = AckResult.SUCCESS ↔ AckSuccessSpec t k) ∧
    (parseCommandAck t k = AckResult.PROTOCOL_MISMATCH ↔ ¬ AckSuccessSpec t k) := by
  have h := ackOk_iff t k
  unfold parseCommandAck
  cases hb : ackOk t k with
  | false =>
    rw [hb] at h
    simp only [Bool.false_eq_true, false_iff] at h
    simp [h]
  | true =>
    rw [hb] at h
    simp only [true_iff] at h
    simp [h]

/-! ## Command dispatch (switch.py, VioletSwitch._send_command lines 63-96)

The transport is an oracle from the attempt index to what the HTTP GET
produced.  The loop makes `retry_attempts = 3` attempts; before attempt
`i > 0` it sleeps `2 ** i` seconds; every exception class (response error,
client error, timeout, anything else) is logged and the loop continues; a
2xx response whose body fails `ackOk` also just continues.  After the loop
`_notify_user_of_failure` runs.  On an accepted ack it requests a coordinator
refresh and returns. -/

/-- What one HTTP attempt of `_send_command` produced. -/
inductive HttpAttempt
  | ok (body : List Char)      -- 2xx response with this body text
  | respError (status : Nat)   -- aiohttp.ClientResponseError from raise_for_status
  | connError                  -- other aiohttp.ClientError
  | timeoutErr                 -- asyncio.TimeoutError
  | otherError                 -- any other exception

/-- Observable outcome of one `_send_command` call: whether an ack was
accepted, whether the failure notification ran, whether a coordinator refresh
was requested, how many attempts were made, and the sleeps performed. -/
structure SendResult where
  success : Bool
  notified : Bool
  refreshRequested : Bool
  attemptsMade : Nat
  waits : List Nat
deriving DecidableEq

/-- The retry loop of `_send_command`, from attempt index `attempt` with
`fuel` attempts remaining. -/
def sendCommandAux (theKey : List Char) (env : Nat → HttpAttempt) :
    Nat → Nat → SendResult
  | _, 0 =>
    { success := false, notified := true, refreshRequested := false,
      attemptsMade := 0, waits := [] }
  | attempt, fuel + 1 =>
    let ws : List Nat := if 0 < attempt then [2 ^ attempt] else []
    match env attempt with
    | .ok body =>
      if ackOk body theKey then
        { success := true, notified := false, refreshRequested := true,
          attemptsMade := 1, waits := ws }
      else
        let r := sendCommandAux theKey env (attempt + 1) fuel
        { r with attemptsMade := r.attemptsMade + 1, waits := ws ++ r.waits }
    | _ =>
      let r := sendCommandAux theKey env (attempt + 1) fuel
      { r with attemptsMade := r.attemptsMade + 1, waits := ws ++ r.waits }

/-- `VioletSwitch._send_command` with its `retry_attempts = 3`. -/
def sendCommand (theKey : List Char) (env : Nat → HttpAttempt) : SendResult :=
  sendCommandAux theKey env 0 3

/-- The command kinds sent to the device. -/
inductive CmdAction
  | ON
  | OFF
  | AUTO
deriving DecidableEq

/-- One dispatched command together with its `_send_command` outcome. -/
structure Dispatch where
  action : CmdAction
  duration : Nat
  lastValue : Nat
  result : SendResult
deriving DecidableEq

/-- The switch's auto-reset bookkeeping: `_cancel_auto_reset` (the stored
asyncio.Task, identified here by the delay it was armed with) and
`auto_reset_time`. -/
structure SwitchTaskState where
  cancelAutoReset : Option Nat
  autoResetTime : Option Nat
deriving DecidableEq

/-- `VioletSwitch.async_turn_on` (lines 98-114).  It always runs
`_send_command("ON", duration, last_value)`.  If `auto_delay > 0` and a prior
`_cancel_auto_reset` is stored, the code executes `self._cancel_auto_reset()`
— but that attribute holds an `asyncio.Task`, which is not callable, so the
call raises `TypeError` and the method aborts with the state unchanged
(`raisedTypeError = true` models the uncaught exception).  With no prior
handle it records `auto_reset_time = now + auto_delay` and stores the new
task. -/
def asyncTurnOn (theKey : List Char) (env : Nat → HttpAttempt)
    (st : SwitchTaskState) (now duration lastValue autoDelay : Nat) :
    Dispatch × SwitchTaskState × Bool :=
  let d : Dispatch := ⟨.ON, duration, lastValue, sendCommand theKey env⟩
  if 0 < autoDelay then
    match st.cancelAutoReset with
    | some _ => (d, st, true)
    | none =>
      (d, { cancelAutoReset := some autoDelay,
            autoResetTime := some (now + autoDelay) }, false)
  else (d, st, false)

/-- `VioletSwitch.async_turn_auto` (lines 131-137): sends
`_send_command("AUTO", auto_delay, last_value)` then sets
`auto_reset_time = None`.  `_cancel_auto_reset` is not touched. -/
def asyncTurnAuto (theKey : List Char) (env : Nat → HttpAttempt)
    (st : SwitchTaskState) (autoDelay lastValue : Nat) :
    Dispatch × SwitchTaskState :=
  (⟨.AUTO, autoDelay, lastValue, sendCommand theKey env⟩,
   { st with autoResetTime := none })

/-- `VioletSwitch._auto_reset` (lines 116-123) on the non-cancelled path:
after sleeping it awaits `async_turn_auto()` with default arguments, i.e.
`auto_delay = 0`, `last_value = 0`.  Nothing clears `_cancel_auto_reset`
here; only the `CancelledError` branch does. -/
def autoResetFire (theKey : List Char) (env : Nat → HttpAttempt)
    (st : SwitchTaskState) : Dispatch × SwitchTaskState :=
  asyncTurnAuto theKey env st 0 0

/-- The key of the Violet Pump switch. -/
def pumpKey : List Char := "PUMP".data

/-- A device acknowledgement the parser accepts for `PUMP`. -/
def okBody : List Char := "OK\nPUMP\nSWITCHED_TO_ON".data

/-- A transport that always answers with the accepted `PUMP` ack. -/
def envOkAck : Nat → HttpAttempt := fun _ => .ok okBody

/-- A transport where every attempt fails with a client connection error. -/
def envConnFail : Nat → HttpAttempt := fun _ => .connError

theorem sendCommandAux_notified (theKey : List Char) (env : Nat → HttpAttempt) :
    ∀ fuel attempt,
      (sendCommandAux theKey env attempt fuel).notified =
        !(sendCommandAux theKey env attempt fuel).success := by
  intro fuel
  induction fuel with
  | zero => intro attempt; rfl
  | succ f ih =>
    intro attempt
    simp only [sendCommandAux]
    cases env attempt with
    | ok body =>
      by_cases hb : ackOk body theKey = true
      · simp [hb]
      · simp only [Bool.not_eq_true] at hb
        simp [hb, ih]
    | respError s => simp [ih]
    | connError => simp [ih]
    | timeoutErr => simp [ih]
    | otherError => simp [ih]

/-! ## Switch state cache and decode (switch.py lines 43-61, binary_sensor.py
lines 28-44)

Coordinator data is a key/value snapshot; the switch code only compares values
against the integers 0, 1, 4, so values are `Int` here, and a missing key is
Python's `None`, i.e. `Option.none`. -/

/-- A coordinator reading as seen by switch and binary-sensor code. -/
abbrev SReading := List (List Char × Int)

/-- Python `dict.get(key)`: first matching key, `None` when absent. -/
def lookupS : SReading → List Char → Option Int
  | [], _ => none
  | (k, v) :: rest, theKey => if k == theKey then some v else lookupS rest theKey

/-- `_cached_state` and `_last_cache_update` of `VioletSwitch`. -/
structure SwitchCache where
  cachedState : Option Int
  lastCacheUpdate : Option Nat
deriving DecidableEq

/-- The freshness test of `_get_switch_state` (line 46):
`self._cached_state is not None and self._last_cache_update and
 (now - self._last_cache_update).total_seconds() < self._cache_duration`,
with `_cache_duration = 10`. -/
def cacheFresh (st : SwitchCache) (now : Nat) : Bool :=
  match st.cachedState, st.lastCacheUpdate with
  | some _, some t => decide (now - t < 10)
  | _, _ => false

/-- `VioletSwitch._get_switch_state` (lines 43-53): serve the cached value
when fresh, otherwise read `coordinator.data.get(self._key)` and refresh the
cache. -/
def getSwitchState (st : SwitchCache) (theKey : List Char) (now : Nat)
    (data : SReading) : Option Int × SwitchCache :=
  if cacheFresh st now then (st.cachedState, st)
  else
    let s := lookupS data theKey
    (s, { cachedState := s, lastCacheUpdate := some now })

/-- `VioletSwitch.is_on` (line 57): `self._get_switch_state() in (1, 4)`;
Python's `None in (1, 4)` is `False`. -/
def isOn (st : SwitchCache) (theKey : List Char) (now : Nat)
    (data : SReading) : Bool :=
  match (getSwitchState st theKey now data).1 with
  | some v => v == 1 || v == 4
  | none => false

/-- `VioletSwitch.is_auto` (line 61): `self._get_switch_state() == 0`;
`None == 0` is `False` in Python. -/
def isAuto (st : SwitchCache) (theKey : List Char) (now : Nat)
    (data : SReading) : Bool :=
  match (getSwitchState st theKey now data).1 with
  | some v => v == 0
  | none => false

/-- The binary sensor's `_has_logged_none_state` flag. -/
structure BSensorState where
  hasLoggedNoneState : Bool
deriving DecidableEq

/-- `VioletBinarySensor._get_sensor_state` (lines 28-39): a `None` state is
logged once and reported as `False` ("Defaulting to 'OFF'"); otherwise the
sensor is on exactly when the value equals 1, and the log flag is reset. -/
def getSensorState (_st : BSensorState) (data : SReading) (theKey : List Char) :
    Bool × BSensorState :=
  match lookupS data theKey with
  | none => (false, ⟨true⟩)
  | some v => (v == 1, ⟨false⟩)

/-! ## Entity update (entity.py, VioletPoolControllerEntity.async_update)

Constants from entity.py: `RETRY_LIMIT = 3`, `CACHE_DURATION = 10` seconds,
`NOTIFY_RETRY_LIMIT = 2`, `VALID_RESPONSE_KEYS = ['fw', 'SW_VERSION',
'pH_value', 'orp_value']`.  The API response is a JSON object whose values a
reading may hold as numbers, strings or null. -/

/-- A JSON value in an API response. -/
inductive JVal
  | num (n : Int)
  | str (s : List Char)
  | null
deriving DecidableEq

/-- An API response / reading: a JSON object. -/
abbrev Reading := List (List Char × JVal)

/-- Python `dict` membership-respecting lookup, `None`-free: `none` means the
key is absent. -/
def lookupR : Reading → List Char → Option JVal
  | [], _ => none
  | (k, v) :: rest, theKey => if k == theKey then some v else lookupR rest theKey

/-- Python `response.get(key)`: an absent key yields `None`, which this model
conflates with JSON null exactly as Python does. -/
def pyGet (r : Reading) (theKey : List Char) : JVal :=
  (lookupR r theKey).getD .null

/-- `VALID_RESPONSE_KEYS` from entity.py line 14. -/
def VALID_RESPONSE_KEYS : List (List Char) :=
  ["fw".data, "SW_VERSION".data, "pH_value".data, "orp_value".data]

/-- `_validate_response` (lines 132-138): every validation key must be present
and not `None`. -/
def validateResponse (r : Reading) : Bool :=
  VALID_RESPONSE_KEYS.all fun k =>
    match lookupR r k with
    | some v => !(v == JVal.null)
    | none => false

/-- The mutable fields of `VioletPoolControllerEntity` touched by
`async_update`. -/
structure EntityState where
  state : JVal
  available : Bool
  lastUpdateSuccessful : Bool
  lastError : Option Unit
  retryAttempts : Nat
  cachedData : Option Reading
  cacheExpiry : Option Nat
  lastUpdated : Option Nat
deriving DecidableEq

/-- The field values set in `__init__` (lines 27-36). -/
def initEntityState : EntityState :=
  { state := .null, available := true, lastUpdateSuccessful := false,
    lastError := none, retryAttempts := 0, cachedData := none,
    cacheExpiry := none, lastUpdated := none }

/-- What one attempt of `self.api_data.get_data()` produced.  The entity's
first `except` clause catches `aiohttp.ClientError` (which includes
`ClientResponseError`), `asyncio.TimeoutError`, `KeyError` and `ValueError`
and keeps looping; the bare `except Exception` returns at once. -/
inductive FetchOutcome
  | ok (r : Reading)
  | respErr (status : Nat)  -- aiohttp.ClientResponseError: caught by the first clause
  | retryableErr            -- other ClientError / TimeoutError / KeyError / ValueError
  | fatalErr                -- any other exception: the bare except returns

/-- Result of one `async_update` call. -/
structure UpdateResult where
  st : EntityState
  notifications : Nat
  attemptsMade : Nat
  waits : List Nat
deriving DecidableEq

/-- The bookkeeping of the first `except` clause (lines 115-119): record the
error, count the retry, mark unavailable. -/
def retryStep (st : EntityState) : EntityState :=
  { st with
    lastError := some ()
    retryAttempts := st.retryAttempts + 1
    available := false }

/-- The `for attempt in range(RETRY_LIMIT)` loop of `async_update`
(lines 87-130).  Each iteration sleeps `2 ** attempt` when `attempt > 0`,
fetches, caches the raw response before validating it, and notifies when a
failing iteration has `attempt >= NOTIFY_RETRY_LIMIT`. -/
def asyncUpdateLoop (ek : List Char) (env : Nat → FetchOutcome) (now : Nat) :
    EntityState → Nat → Nat → UpdateResult
  | st, _, 0 => ⟨st, 0, 0, []⟩
  | st, attempt, fuel + 1 =>
    let ws : List Nat := if 0 < attempt then [2 ^ attempt] else []
    match env attempt with
    | .ok r =>
      let st1 := { st with cachedData := some r, cacheExpiry := some (now + 10) }
      if validateResponse r then
        ⟨{ st1 with
            state := pyGet r ek
            lastUpdated := some now
            available := true
            lastUpdateSuccessful := true
            lastError := none
            retryAttempts := 0 }, 0, 1, ws⟩
      else
        let noti : Nat := if 2 ≤ attempt then 1 else 0
        let rest := asyncUpdateLoop ek env now (retryStep st1) (attempt + 1) fuel
        ⟨rest.st, noti + rest.notifications, rest.attemptsMade + 1, ws ++ rest.waits⟩
    | .respErr _ =>
      let noti : Nat := if 2 ≤ attempt then 1 else 0
      let rest := asyncUpdateLoop ek env now (retryStep st) (attempt + 1) fuel
      ⟨rest.st, noti + rest.notifications, rest.attemptsMade + 1, ws ++ rest.waits⟩
    | .retryableErr =>
      let noti : Nat := if 2 ≤ attempt then 1 else 0
      let rest := asyncUpdateLoop ek env now (retryStep st) (attempt + 1) fuel
      ⟨rest.st, noti + rest.notifications, rest.attemptsMade + 1, ws ++ rest.waits⟩
    | .fatalErr =>
      ⟨{ st with lastError := some (), available := false }, 0, 1, ws⟩

/-- The cache test of `async_update` line 82: `self._cached_data and
self._cache_expiry and now < self._cache_expiry` — the cached dict must be
truthy (non-empty), the expiry set, and not yet reached. -/
def cacheHit (st : EntityState) (now : Nat) : Bool :=
  match st.cachedData, st.cacheExpiry with
  | some d, some e => !d.isEmpty && decide (now < e)
  | _, _ => false

/-- `async_update` (lines 77-130): on a cache hit the cached response is fed
to `_update_state` with no network call; otherwise the retry loop runs with
`RETRY_LIMIT = 3`. -/
def asyncUpdate (ek : List Char) (env : Nat → FetchOutcome) (now : Nat)
    (st : EntityState) : UpdateResult :=
  if cacheHit st now then
    ⟨{ st with state := pyGet (st.cachedData.getD []) ek, lastUpdated := some now },
     0, 0, []⟩
  else asyncUpdateLoop ek env now st 0 3

/-- The entity key used in concrete runs below. -/
def fwKey : List Char := "fw".data

/-- An api_data oracle failing every attempt with a retryable error. -/
def envRetryAll : Nat → FetchOutcome := fun _ => .retryableErr

/-- A response that passes `_validate_response`. -/
def validReading : Reading :=
  [(fwKey, JVal.str "1.1.4".data), ("SW_VERSION".data, JVal.str "1.1.4".data),
   ("pH_value".data, JVal.num 7), ("orp_value".data, JVal.num 700)]

/-- A non-empty response that fails `_validate_response` (no `fw` key). -/
def invalidReading : Reading := [("pH_value".data, JVal.num 7)]

/-! ## Config-flow fetch (config_flow.py, fetch_api_data lines 45-84)

`CACHE_DURATION = 30` seconds; no sleeps between attempts.  Only
`aiohttp.ClientConnectionError` is retried (and converted to a `ValueError`
on the last attempt); `ClientResponseError` (non-2xx), `asyncio.TimeoutError`
and any other exception raise a `ValueError` immediately. -/

/-- What one attempt of the config-flow GET produced. -/
inductive PollAttempt
  | okJson (r : Reading)    -- 2xx with a JSON body
  | connFail                -- aiohttp.ClientConnectionError
  | respFail (status : Nat) -- aiohttp.ClientResponseError (non-2xx status)
  | timeoutFail             -- asyncio.TimeoutError
  | otherFail               -- any other exception

/-- The `ValueError` messages `fetch_api_data` can raise. -/
inductive FetchFailure
  | connectionFailed   -- "Connection error after multiple attempts."
  | invalidResponse    -- "Invalid API response."
  | requestTimedOut    -- "API request timed out."
  | unexpectedFailure  -- "Unexpected error occurred."
deriving DecidableEq

/-- How `fetch_api_data` ends: returned data, a raised `ValueError`, or the
implicit `None` after a loop over zero attempts. -/
inductive FetchOut
  | ok (r : Reading)
  | err (e : FetchFailure)
  | noneReturn
deriving DecidableEq

/-- Result of `fetch_api_data`: outcome, final cache content, attempts made. -/
structure FetchApiResult where
  out : FetchOut
  cache : Option (Reading × Nat)
  attemptsMade : Nat
deriving DecidableEq

/-- The `for attempt in range(retry_attempts)` loop of `fetch_api_data`. -/
def fetchApiDataAux (env : Nat → PollAttempt) (now : Nat)
    (retryAttempts : Nat) : Option (Reading × Nat) → Nat → Nat → FetchApiResult
  | cache, _, 0 => ⟨.noneReturn, cache, 0⟩
  | cache, attempt, fuel + 1 =>
    match env attempt with
    | .okJson r => ⟨.ok r, some (r, now), 1⟩
    | .connFail =>
      if attempt + 1 = retryAttempts then ⟨.err .connectionFailed, cache, 1⟩
      else
        let rest := fetchApiDataAux env now retryAttempts cache (attempt + 1) fuel
        ⟨rest.out, rest.cache, rest.attemptsMade + 1⟩
    | .respFail _ => ⟨.err .invalidResponse, cache, 1⟩
    | .timeoutFail => ⟨.err .requestTimedOut, cache, 1⟩
    | .otherFail => ⟨.err .unexpectedFailure, cache, 1⟩

/-- `fetch_api_data` (lines 45-84): serve the cache when
`cache["timestamp"] + 30s > utcnow()`, else run the attempt loop. -/
def fetchApiData (env : Nat → PollAttempt) (now : Nat)
    (cache : Option (Reading × Nat)) (retryAttempts : Nat) : FetchApiResult :=
  match cache with
  | some (d, ts) =>
    if now < ts + 30 then ⟨.ok d, cache, 0⟩
    else fetchApiDataAux env now retryAttempts cache 0 retryAttempts
  | none => fetchApiDataAux env now retryAttempts cache 0 retryAttempts

/-! ## Dispatch failure, notification and auto-reset arming (C2, C3) -/

/-- C2 counterexample: all three attempts of the underlying command fail
(client connection errors), so the final outcome is not SUCCESS and the
failure notification runs — yet `async_turn_on` with `auto_delay = 1` still
arms a pending auto-reset, contradicting "no pending auto-reset for the key
is armed or altered". -/
theorem turnOn_failure_arms_reset_cex :
    (asyncTurnOn pumpKey envConnFail ⟨none, none⟩ 0 0 0 1).1.result.success = false ∧
    (asyncTurnOn pumpKey envConnFail ⟨none, none⟩ 0 0 0 1).1.result.notified = true ∧
    (asyncTurnOn pumpKey envConnFail ⟨none, none⟩ 0 0 0 1).2.1.cancelAutoReset = some 1 ∧
    (asyncTurnOn pumpKey envConnFail ⟨none, none⟩ 0 0 0 1).2.1.autoResetTime = some 1 := by
  decide

/-- C2 (amended): on a non-success outcome the failure notification does run,
but the auto-reset arming is independent of the outcome: whenever
`auto_delay > 0` and no prior handle is stored, `async_turn_on` arms the
reset even though every attempt of the command failed. -/
theorem turnOn_failure_notifies_and_arms (theKey : List Char)
    (env : Nat → HttpAttempt) (st : SwitchTaskState)
    (now duration lastValue autoDelay : Nat)
    (hfail : (sendCommand theKey env).success = false) :
    (asyncTurnOn theKey env st now duration lastValue autoDelay).1.result.notified = true ∧
    (0 < autoDelay → st.cancelAutoReset = none →
      (asyncTurnOn theKey env st now duration lastValue autoDelay).2.1.cancelAutoReset
          = some autoDelay ∧
      (asyncTurnOn theKey env st now duration lastValue autoDelay).2.1.autoResetTime
          = some (now + autoDelay)) := by
  have hn := sendCommandAux_notified theKey env 3 0
  have hnot : (sendCommand theKey env).notified = true := by
    unfold sendCommand at hfail ⊢
    rw [hn, hfail]
    rfl
  constructor
  · have hd : (asyncTurnOn theKey env st now duration lastValue autoDelay).1 =
        ⟨CmdAction.ON, duration, lastValue, sendCommand theKey env⟩ := by
      unfold asyncTurnOn
      split
      · cases st.cancelAutoReset <;> rfl
      · rfl
    rw [hd]
    exact hnot
  · intro had hnone
    simp [asyncTurnOn, had, hnone]

/-- C2 witness: a concrete failing turn-on with `auto_delay = 2`. -/
theorem turnOn_failure_notifies_and_arms_witness :
    (sendCommand pumpKey envConnFail).success = false ∧
    ((asyncTurnOn pumpKey envConnFail ⟨none, none⟩ 5 0 0 2).1.result.notified = true ∧
     (0 < 2 → (⟨none, none⟩ : SwitchTaskState).cancelAutoReset = none →
       (asyncTurnOn pumpKey envConnFail ⟨none, none⟩ 5 0 0 2).2.1.cancelAutoReset = some 2 ∧
       (asyncTurnOn pumpKey envConnFail ⟨none, none⟩ 5 0 0 2).2.1.autoResetTime = some (5 + 2))) :=
  ⟨by decide,
   turnOn_failure_notifies_and_arms pumpKey envConnFail ⟨none, none⟩ 5 0 0 2 (by decide)⟩

/-- C3 (code bug): arm the PUMP auto-reset with delay 5 (succeeds), then arm
again with delay 1 before the first fires.  The second call hits
`self._cancel_auto_reset()` — calling the stored `asyncio.Task` — which
raises `TypeError`, so the call aborts and the first pending reset is still
armed (its AUTO command will still fire); the claimed cancel-and-replace
never happens. -/
theorem auto_reset_rearm_crashes :
    (asyncTurnOn pumpKey envOkAck ⟨none, none⟩ 0 0 0 5).2.2 = false ∧
    (asyncTurnOn pumpKey envOkAck ⟨none, none⟩ 0 0 0 5).2.1.cancelAutoReset = some 5 ∧
    (asyncTurnOn pumpKey envOkAck
      (asyncTurnOn pumpKey envOkAck ⟨none, none⟩ 0 0 0 5).2.1 1 0 0 1).2.2 = true ∧
    (asyncTurnOn pumpKey envOkAck
      (asyncTurnOn pumpKey envOkAck ⟨none, none⟩ 0 0 0 5).2.1 1 0 0 1).2.1.cancelAutoReset
        = some 5 := by
  decide

/-! ## Auto-reset firing (C8) -/

/-- C8 counterexample: with a pending reset armed (handle for the 5 s task,
`auto_reset_time = 7`), the timer fires — here the dispatched AUTO command
even fails — yet `_cancel_auto_reset` still holds the finished task
afterwards: the pending entry is not cleared. -/
theorem auto_reset_fire_handle_not_cleared_cex :
    (autoResetFire pumpKey envConnFail ⟨some 5, some 7⟩).1.result.success = false ∧
    (autoResetFire pumpKey envConnFail ⟨some 5, some 7⟩).2.cancelAutoReset = some 5 ∧
    ¬ (autoResetFire pumpKey envConnFail ⟨some 5, some 7⟩).2.cancelAutoReset = none := by
  decide

/-- C8 (amended): when the pending auto-reset fires it does invoke the
dispatch with action AUTO, duration 0 and auxiliary value 0, and it clears
`auto_reset_time`; but the stored cancel handle is never cleared by a normal
fire (only the cancellation branch clears it), whether or not the dispatched
command succeeds. -/
theorem auto_reset_fire_amended (theKey : List Char) (env : Nat → HttpAttempt)
    (st : SwitchTaskState) :
    (autoResetFire theKey env st).1.action = CmdAction.AUTO ∧
    (autoResetFire theKey env st).1.duration = 0 ∧
    (autoResetFire theKey env st).1.lastValue = 0 ∧
    (autoResetFire theKey env st).2.autoResetTime = none ∧
    (autoResetFire theKey env st).2.cancelAutoReset = st.cancelAutoReset := by
  simp [autoResetFire, asyncTurnAuto]

/-! ## Retry/backoff schedule (C4)

The specification's wait schedule: starting at attempt index `a`, an
operation that makes `m` attempts sleeps `2 ^ i` seconds before each attempt
`i > 0`. -/

/-- The sleep sequence the specification prescribes for attempts
`a, a+1, …, a+m-1`. -/
def expectedWaits : Nat → Nat → List Nat
  | _, 0 => []
  | a, m + 1 => (if 0 < a then [2 ^ a] else []) ++ expectedWaits (a + 1) m

theorem sendCommandAux_attempts_le (theKey : List Char) (env : Nat → HttpAttempt) :
    ∀ fuel attempt, (sendCommandAux theKey env attempt fuel).attemptsMade ≤ fuel := by
  intro fuel
  induction fuel with
  | zero => intro _; exact Nat.le_refl 0
  | succ f ih =>
    intro a
    simp only [sendCommandAux]
    cases env a with
    | ok body =>
      by_cases hb : ackOk body theKey = true
      · simp [hb]
      · simp only [Bool.not_eq_true] at hb
        simp only [hb, Bool.false_eq_true, if_false]
        exact Nat.succ_le_succ (ih (a + 1))
    | respError s => exact Nat.succ_le_succ (ih (a + 1))
    | connError => exact Nat.succ_le_succ (ih (a + 1))
    | timeoutErr => exact Nat.succ_le_succ (ih (a + 1))
    | otherError => exact Nat.succ_le_succ (ih (a + 1))

theorem sendCommandAux_waits (theKey : List Char) (env : Nat → HttpAttempt) :
    ∀ fuel attempt,
      (sendCommandAux theKey env attempt fuel).waits =
        expectedWaits attempt (sendCommandAux theKey env attempt fuel).attemptsMade := by
  intro fuel
  induction fuel with
  | zero => intro _; rfl
  | succ f ih =>
    intro a
    simp only [sendCommandAux]
    cases env a with
    | ok body =>
      by_cases hb : ackOk body theKey = true
      · simp [hb, expectedWaits]
      · simp only [Bool.not_eq_true] at hb
        simp only [hb, Bool.false_eq_true, if_false]
        simp [expectedWaits, ih (a + 1)]
    | respError s => simp [expectedWaits, ih (a + 1)]
    | connError => simp [expectedWaits, ih (a + 1)]
    | timeoutErr => simp [expectedWaits, ih (a + 1)]
    | otherError => simp [expectedWaits, ih (a + 1)]

theorem asyncUpdateLoop_attempts_le (ek : List Char) (env : Nat → FetchOutcome)
    (now : Nat) :
    ∀ fuel st attempt, (asyncUpdateLoop ek env now st attempt fuel).attemptsMade ≤ fuel := by
  intro fuel
  induction fuel with
  | zero => intro _ _; exact Nat.le_refl 0
  | succ f ih =>
    intro st a
    simp only [asyncUpdateLoop]
    cases env a with
    | ok r =>
      by_cases hv : validateResponse r = true
      · simp [hv]
      · simp only [Bool.not_eq_true] at hv
        simp only [hv, Bool.false_eq_true, if_false]
        exact Nat.succ_le_succ (ih _ (a + 1))
    | respErr s => exact Nat.succ_le_succ (ih _ (a + 1))
    | retryableErr => exact Nat.succ_le_succ (ih _ (a + 1))
    | fatalErr => simp

theorem asyncUpdateLoop_waits (ek : List Char) (env : Nat → FetchOutcome)
    (now : Nat) :
    ∀ fuel st attempt,
      (asyncUpdateLoop ek env now st attempt fuel).waits =
        expectedWaits attempt (asyncUpdateLoop ek env now st attempt fuel).attemptsMade := by
  intro fuel
  induction fuel with
  | zero => intro _ _; rfl
  | succ f ih =>
    intro st a
    simp only [asyncUpdateLoop]
    cases env a with
    | ok r =>
      by_cases hv : validateResponse r = true
      · simp [hv, expectedWaits]
      · simp only [Bool.not_eq_true] at hv
        simp only [hv, Bool.false_eq_true, if_false]
        simp [expectedWaits, ih _ (a + 1)]
    | respErr s => simp [expectedWaits, ih _ (a + 1)]
    | retryableErr => simp [expectedWaits, ih _ (a + 1)]
    | fatalErr => simp [expectedWaits]

theorem expectedWaits_from_zero (m : Nat) (hm : m ≤ 3) :
    expectedWaits 0 m = [2, 4].take (m - 1) := by
  interval_cases m <;> rfl

/-- C4: both retried operations — a command dispatch and an entity poll —
make at most 3 attempts, with no wait before the first attempt and a wait of
exactly 2^i seconds before attempt i+1 (i ≥ 1): the realized sleep sequence
is always the corresponding prefix of [2, 4]. -/
theorem retry_backoff_schedule (theKey ek : List Char) (env : Nat → HttpAttempt)
    (envU : Nat → FetchOutcome) (st : EntityState) (now : Nat) :
    (sendCommand theKey env).attemptsMade ≤ 3 ∧
    (sendCommand theKey env).waits =
      [2, 4].take ((sendCommand theKey env).attemptsMade - 1) ∧
    (asyncUpdate ek envU now st).attemptsMade ≤ 3 ∧
    (asyncUpdate ek envU now st).waits =
      [2, 4].take ((asyncUpdate ek envU now st).attemptsMade - 1) := by
  have h1 := sendCommandAux_attempts_le theKey env 3 0
  have h2 := sendCommandAux_waits theKey env 3 0
  refine ⟨h1, ?_, ?_, ?_⟩
  · unfold sendCommand at *
    rw [h2, expectedWaits_from_zero _ h1]
  · unfold asyncUpdate
    split
    · exact Nat.zero_le 3
    · exact asyncUpdateLoop_attempts_le ek envU now 3 st 0
  · unfold asyncUpdate
    split
    · rfl
    · rw [asyncUpdateLoop_waits ek envU now 3 st 0,
        expectedWaits_from_zero _ (asyncUpdateLoop_attempts_le ek envU now 3 st 0)]

/-! ## HTTP error classification (C5) -/

/-- C5 counterexample: a non-2xx response (`ClientResponseError`, e.g. 404)
in the command path is caught and retried — all 3 attempts run — and the
entity update path likewise retries it; the claim says such a response is
never retried. -/
theorem http_error_retried_cex :
    (sendCommand pumpKey (fun _ => HttpAttempt.respError 404)).attemptsMade = 3 ∧
    (sendCommand pumpKey (fun _ => HttpAttempt.respError 404)).success = false ∧
    (asyncUpdate fwKey (fun _ => FetchOutcome.respErr 500) 0 initEntityState).attemptsMade
      = 3 := by
  decide

/-- C5 (amended): only the config-flow fetch treats a non-2xx response as
fatal — it raises `ValueError("Invalid API response.")` after exactly one
attempt; the command dispatch and the entity update catch the same error
class and retry it up to the shared 3-attempt budget. -/
theorem http_error_classification_amended (s : Nat) (theKey ek : List Char)
    (env : Nat → PollAttempt) (now : Nat)
    (h0 : env 0 = PollAttempt.respFail s) :
    (fetchApiData env now none 3).out = FetchOut.err FetchFailure.invalidResponse ∧
    (fetchApiData env now none 3).attemptsMade = 1 ∧
    (sendCommand theKey (fun _ => HttpAttempt.respError s)).attemptsMade = 3 ∧
    (sendCommand theKey (fun _ => HttpAttempt.respError s)).success = false ∧
    (asyncUpdate ek (fun _ => FetchOutcome.respErr s) now initEntityState).attemptsMade
      = 3 := by
  refine ⟨?_, ?_, ?_, ?_, ?_⟩
  · simp [fetchApiData, fetchApiDataAux, h0]
  · simp [fetchApiData, fetchApiDataAux, h0]
  · simp [sendCommand, sendCommandAux]
  · simp [sendCommand, sendCommandAux]
  · simp [asyncUpdate, cacheHit, initEntityState, asyncUpdateLoop, retryStep]

/-- C5 witness: status 404 at attempt 0. -/
theorem http_error_classification_amended_witness :
    (fun _ => PollAttempt.respFail 404) 0 = PollAttempt.respFail 404 ∧
    (fetchApiData (fun _ => PollAttempt.respFail 404) 0 none 3).out
      = FetchOut.err FetchFailure.invalidResponse ∧
    (sendCommand pumpKey (fun _ => HttpAttempt.respError 404)).attemptsMade = 3 := by
  have h := http_error_classification_amended 404 pumpKey fwKey
    (fun _ => PollAttempt.respFail 404) 0 rfl
  exact ⟨rfl, h.1, h.2.2.1⟩

/-! ## Three-state decode (C6) -/

/-- C6 counterexample: the binary sensor decodes a missing key to `False`
(plain off) — indistinguishable from the known-off value 2 — and decodes the
value 4 to off even though the switch decodes 4 as on; there is no distinct
UNKNOWN/UNAVAILABLE outcome, so missing keys are rendered silently off. -/
theorem decode_missing_key_silently_off_cex :
    (getSensorState ⟨false⟩ [] pumpKey).1 = false ∧
    (getSensorState ⟨false⟩ [(pumpKey, 2)] pumpKey).1 = false ∧
    (getSensorState ⟨false⟩ [(pumpKey, 4)] pumpKey).1 = false ∧
    isOn ⟨none, none⟩ pumpKey 0 [(pumpKey, 4)] = true ∧
    isOn ⟨none, none⟩ pumpKey 0 [] = false ∧
    isAuto ⟨none, none⟩ pumpKey 0 [] = false := by
  decide

/-- C6 (amended): the switch decodes on exactly for values 1 and 4 and auto
exactly for 0, with a missing key giving neither (it renders as plain
off/manual, not as a distinct unavailable state); the binary sensor decodes
on exactly for value 1 (so 4 counts as off), maps a missing key to off, and
tracks the missing-key case only in its log-once flag. -/
theorem decode_states_amended (now : Nat) (data : SReading) (theKey : List Char)
    (bst : BSensorState) :
    (isOn ⟨none, none⟩ theKey now data = true ↔
      (lookupS data theKey = some 1 ∨ lookupS data theKey = some 4)) ∧
    (isAuto ⟨none, none⟩ theKey now data = true ↔ lookupS data theKey = some 0) ∧
    ((getSensorState bst data theKey).1 = true ↔ lookupS data theKey = some 1) ∧
    ((getSensorState bst data theKey).2.hasLoggedNoneState = true ↔
      lookupS data theKey = none) := by
  cases h : lookupS data theKey with
  | none => simp [isOn, isAuto, getSwitchState, cacheFresh, getSensorState, h]
  | some v => simp [isOn, isAuto, getSwitchState, cacheFresh, getSensorState, h]

/-! ## Failure notification cadence (C7) -/

/-- C7 counterexample: two consecutive fully-failing update calls (one
failure episode — the consecutive-failure counter keeps growing, no success
in between) each trigger the notification: it fires on every failing tick,
not exactly once per episode. -/
theorem notification_every_failing_tick_cex :
    (asyncUpdate fwKey envRetryAll 0 initEntityState).notifications = 1 ∧
    (asyncUpdate fwKey envRetryAll 100
      (asyncUpdate fwKey envRetryAll 0 initEntityState).st).notifications = 1 ∧
    (asyncUpdate fwKey envRetryAll 100
      (asyncUpdate fwKey envRetryAll 0 initEntityState).st).st.retryAttempts = 6 := by
  decide

/-- C7 (amended): each `async_update` call that exhausts its 3 attempts on
retryable errors triggers exactly one notification, on the third failing
attempt of that call (`attempt >= NOTIFY_RETRY_LIMIT`), regardless of the
consecutive-failure counter accumulated from earlier ticks — the counter
does not gate the notification; a successful validated fetch resets the
counter to 0 and notifies nothing. -/
theorem notification_per_call_amended (ek : List Char)
    (envU : Nat → FetchOutcome) (st : EntityState) (now : Nat)
    (hc : cacheHit st now = false)
    (hf : ∀ i, i < 3 → envU i = FetchOutcome.retryableErr) :
    (asyncUpdate ek envU now st).notifications = 1 ∧
    (asyncUpdate ek envU now st).attemptsMade = 3 ∧
    (asyncUpdate ek envU now st).st.retryAttempts = st.retryAttempts + 3 ∧
    (asyncUpdate ek envU now st).st.available = false ∧
    (∀ (env2 : Nat → FetchOutcome) (r : Reading) (now2 : Nat) (st2 : EntityState),
      cacheHit st2 now2 = false → env2 0 = FetchOutcome.ok r →
      validateResponse r = true →
      (asyncUpdate ek env2 now2 st2).st.retryAttempts = 0 ∧
      (asyncUpdate ek env2 now2 st2).notifications = 0) := by
  have h0 := hf 0 (by omega)
  have h1 := hf 1 (by omega)
  have h2 := hf 2 (by omega)
  refine ⟨?_, ?_, ?_, ?_, ?_⟩
  · simp [asyncUpdate, hc, asyncUpdateLoop, h0, h1, h2, retryStep]
  · simp [asyncUpdate, hc, asyncUpdateLoop, h0, h1, h2, retryStep]
  · simp [asyncUpdate, hc, asyncUpdateLoop, h0, h1, h2, retryStep]
  · simp [asyncUpdate, hc, asyncUpdateLoop, h0, h1, h2, retryStep]
  · intro env2 r now2 st2 hc2 he hv
    constructor
    · simp [asyncUpdate, hc2, asyncUpdateLoop, he, hv]
    · simp [asyncUpdate, hc2, asyncUpdateLoop, he, hv]

/-- C7 witness: a concrete failing tick and a concrete successful tick. -/
theorem notification_per_call_amended_witness :
    cacheHit initEntityState 0 = false ∧
    (asyncUpdate fwKey envRetryAll 0 initEntityState).notifications = 1 ∧
    (asyncUpdate fwKey (fun _ => FetchOutcome.ok validReading) 0
      initEntityState).st.retryAttempts = 0 := by
  have h := notification_per_call_amended fwKey envRetryAll initEntityState 0 rfl
    (fun _ _ => rfl)
  exact ⟨rfl, h.1,
    (h.2.2.2.2 (fun _ => FetchOutcome.ok validReading) validReading 0 initEntityState
      rfl rfl (by decide)).1⟩

/-! ## Cache freshness (C9) -/

theorem cacheHit_true_of (st : EntityState) (now : Nat) (d : Reading) (e : Nat)
    (h1 : st.cachedData = some d) (h2 : st.cacheExpiry = some e)
    (h3 : d.isEmpty = false) (h4 : now < e) : cacheHit st now = true := by
  simp [cacheHit, h1, h2, h3, h4]

theorem asyncUpdate_cacheHit_eq (ek : List Char) (env : Nat → FetchOutcome)
    (now : Nat) (st : EntityState) (h : cacheHit st now = true) :
    asyncUpdate ek env now st =
      ⟨{ st with state := pyGet (st.cachedData.getD []) ek, lastUpdated := some now },
       0, 0, []⟩ := by
  simp [asyncUpdate, h]

theorem asyncUpdateLoop_attempts_pos (ek : List Char) (env : Nat → FetchOutcome)
    (now : Nat) (st : EntityState) (attempt fuel : Nat) :
    1 ≤ (asyncUpdateLoop ek env now st attempt (fuel + 1)).attemptsMade := by
  simp only [asyncUpdateLoop]
  cases env attempt with
  | ok r =>
    by_cases hv : validateResponse r = true
    · simp [hv]
    · simp only [Bool.not_eq_true] at hv
      simp only [hv, Bool.false_eq_true, if_false]
      exact Nat.succ_le_succ (Nat.zero_le _)
  | respErr s => exact Nat.succ_le_succ (Nat.zero_le _)
  | retryableErr => exact Nat.succ_le_succ (Nat.zero_le _)
  | fatalErr => simp

/-- C9 counterexample: a cache entry written at time 0 read at time 10 —
age exactly equal to the 10-second window — is reported stale (the code's
test is strict `<`), and `_get_switch_state` refetches from the coordinator;
the claim's "age ≤ maxAge" predicts fresh. -/
theorem cache_boundary_stale_cex :
    cacheFresh ⟨some 1, some 0⟩ 10 = false ∧
    (getSwitchState ⟨some 1, some 0⟩ pumpKey 10 [(pumpKey, 0)]).1 = some 0 := by
  decide

/-- C9 (amended): freshness is strict — a populated switch cache is fresh
iff its age is strictly below the 10-second window: a put followed
immediately by a get is served from cache, and at or past the window the
coordinator is consulted again.  Likewise the entity cache serves a hit
with zero network attempts and runs at least one network attempt once the
expiry is reached. -/
theorem cache_freshness_amended (v : Int) (t now : Nat) (theKey : List Char)
    (data : SReading) :
    (cacheFresh ⟨some v, some t⟩ now = true ↔ now - t < 10) ∧
    (now - t < 10 →
      getSwitchState ⟨some v, some t⟩ theKey now data = (some v, ⟨some v, some t⟩)) ∧
    (10 ≤ now - t →
      getSwitchState ⟨some v, some t⟩ theKey now data =
        (lookupS data theKey, ⟨lookupS data theKey, some now⟩)) ∧
    (∀ (st : EntityState) (envU : Nat → FetchOutcome) (d : Reading) (e now2 : Nat),
      st.cachedData = some d → st.cacheExpiry = some e → d ≠ [] → now2 < e →
      (asyncUpdate theKey envU now2 st).attemptsMade = 0) ∧
    (∀ (st : EntityState) (envU : Nat → FetchOutcome) (e now2 : Nat),
      st.cacheExpiry = some e → e ≤ now2 →
      1 ≤ (asyncUpdate theKey envU now2 st).attemptsMade) := by
  refine ⟨by simp [cacheFresh], ?_, ?_, ?_, ?_⟩
  · intro h
    simp [getSwitchState, cacheFresh, h]
  · intro h
    have hlt : ¬ (now - t < 10) := by omega
    simp [getSwitchState, cacheFresh, hlt]
  · intro st envU d e now2 hd he hne hlt
    have hie : d.isEmpty = false := by
      cases d with
      | nil => exact absurd rfl hne
      | cons a l => rfl
    rw [asyncUpdate_cacheHit_eq theKey envU now2 st
      (cacheHit_true_of st now2 d e hd he hie hlt)]
  · intro st envU e now2 he hge
    have hch : cacheHit st now2 = false := by
      have : ¬ (now2 < e) := by omega
      cases hcd : st.cachedData with
      | none => simp [cacheHit, hcd]
      | some d => simp [cacheHit, hcd, he, this]
    unfold asyncUpdate
    rw [hch]
    simp only [Bool.false_eq_true, if_false]
    exact asyncUpdateLoop_attempts_pos theKey envU now2 st 0 2

/-- A populated entity cache (non-empty data, expiry at 10). -/
def sampleCachedSt : EntityState :=
  { initEntityState with cachedData := some invalidReading, cacheExpiry := some 10 }

/-- C9 witness: put at 0, get at 5 → cached value; get at 12 → refetch; an
entity cache hit at 3 does no network attempt, and at 20 it polls again. -/
theorem cache_freshness_amended_witness :
    ((5:Nat) - 0 < 10) ∧
    getSwitchState ⟨some 1, some 0⟩ pumpKey 5 [] = (some 1, ⟨some 1, some 0⟩) ∧
    ((10:Nat) ≤ 12 - 0) ∧
    getSwitchState ⟨some 1, some 0⟩ pumpKey 12 [] =
      (lookupS [] pumpKey, ⟨lookupS [] pumpKey, some 12⟩) ∧
    (asyncUpdate pumpKey envRetryAll 3 sampleCachedSt).attemptsMade = 0 ∧
    1 ≤ (asyncUpdate pumpKey envRetryAll 20 sampleCachedSt).attemptsMade := by
  refine ⟨by decide, (cache_freshness_amended 1 0 5 pumpKey []).2.1 (by decide),
    by decide, (cache_freshness_amended 1 0 12 pumpKey []).2.2.1 (by decide),
    (cache_freshness_amended 1 0 0 pumpKey []).2.2.2.1 sampleCachedSt envRetryAll
      invalidReading 10 3 rfl rfl (by decide) (by decide),
    (cache_freshness_amended 1 0 0 pumpKey []).2.2.2.2 sampleCachedSt envRetryAll
      10 20 rfl (by decide)⟩

/-! ## Cache-before-validate (C10) -/

/-- C10: the entity update caches the raw response (data and expiry) before
validating it, so a response that fails validation is stored anyway, the
call ends unavailable with one notification — and a subsequent update within
the 10-second window serves the invalid cached response as the entity state,
with zero network attempts and without restoring availability. -/
theorem invalid_response_cached_and_served (r : Reading) (ek : List Char)
    (env2 : Nat → FetchOutcome) (t0 t1 : Nat)
    (hv : validateResponse r = false) (hne : r ≠ []) (ht : t1 < t0 + 10) :
    (asyncUpdate ek (fun _ => FetchOutcome.ok r) t0 initEntityState).st.cachedData
      = some r ∧
    (asyncUpdate ek (fun _ => FetchOutcome.ok r) t0 initEntityState).st.cacheExpiry
      = some (t0 + 10) ∧
    (asyncUpdate ek (fun _ => FetchOutcome.ok r) t0 initEntityState).st.available
      = false ∧
    (asyncUpdate ek (fun _ => FetchOutcome.ok r) t0 initEntityState).notifications
      = 1 ∧
    (asyncUpdate ek env2 t1
      (asyncUpdate ek (fun _ => FetchOutcome.ok r) t0 initEntityState).st).attemptsMade
      = 0 ∧
    (asyncUpdate ek env2 t1
      (asyncUpdate ek (fun _ => FetchOutcome.ok r) t0 initEntityState).st).st.state
      = pyGet r ek ∧
    (asyncUpdate ek env2 t1
      (asyncUpdate ek (fun _ => FetchOutcome.ok r) t0 initEntityState).st).st.available
      = false := by
  have hie : r.isEmpty = false := by
    cases r with
    | nil => exact absurd rfl hne
    | cons a l => rfl
  have hcd : (asyncUpdate ek (fun _ => FetchOutcome.ok r) t0 initEntityState).st.cachedData
      = some r := by
    simp [asyncUpdate, cacheHit, initEntityState, asyncUpdateLoop, hv, retryStep]
  have hce : (asyncUpdate ek (fun _ => FetchOutcome.ok r) t0 initEntityState).st.cacheExpiry
      = some (t0 + 10) := by
    simp [asyncUpdate, cacheHit, initEntityState, asyncUpdateLoop, hv, retryStep]
  have hav : (asyncUpdate ek (fun _ => FetchOutcome.ok r) t0 initEntityState).st.available
      = false := by
    simp [asyncUpdate, cacheHit, initEntityState, asyncUpdateLoop, hv, retryStep]
  have hno : (asyncUpdate ek (fun _ => FetchOutcome.ok r) t0 initEntityState).notifications
      = 1 := by
    simp [asyncUpdate, cacheHit, initEntityState, asyncUpdateLoop, hv, retryStep]
  have hch := cacheHit_true_of _ t1 r (t0 + 10) hcd hce hie ht
  have heq := asyncUpdate_cacheHit_eq ek env2 t1 _ hch
  refine ⟨hcd, hce, hav, hno, ?_, ?_, ?_⟩
  · rw [heq]
  · rw [heq]
    simp [hcd]
  · rw [heq]
    simp [hav]

/-- C10 witness: a non-empty response missing the `fw` key. -/
theorem invalid_response_cached_and_served_witness :
    validateResponse invalidReading = false ∧ ¬ invalidReading = [] ∧ (5:Nat) < 0 + 10 ∧
    (asyncUpdate fwKey (fun _ => FetchOutcome.ok invalidReading) 0
      initEntityState).st.cachedData = some invalidReading ∧
    (asyncUpdate fwKey envRetryAll 5
      (asyncUpdate fwKey (fun _ => FetchOutcome.ok invalidReading) 0
        initEntityState).st).attemptsMade = 0 := by
  have h := invalid_response_cached_and_served invalidReading fwKey envRetryAll 0 5
    (by decide) (by decide) (by decide)
  exact ⟨by decide, by decide, by decide, h.1, h.2.2.2.2.1⟩
